import Mathlib

/-!
Shallow embedding of the event-processor service
(src/services/event-processor/main.py): data model, the per-event
processing pipeline, the batch intake loop, the idempotent Cosmos store
write, the Redis recent-activity cache write, failure injection, and
the control endpoints.  Machine state that the Python code mutates is
passed explicitly; external I/O results (random draws, store responses,
cache reachability) are inputs.
-/

namespace EventProc

/-- Log levels used by the structured logger calls that the claims mention. -/
inductive LogLevel
  | info
  | warning
  | error
deriving DecidableEq

/-- Prefix test on character lists (used to embed the Python `in` substring test). -/
def charsPre : List Char → List Char → Bool
  | [], _ => true
  | _ :: _, [] => false
  | p :: ps, c :: cs => p = c && charsPre ps cs

/-- Substring containment on character lists: does the haystack contain the needle? -/
def charsContain (needle : List Char) : List Char → Bool
  | [] => needle.isEmpty
  | c :: rest => charsPre needle (c :: rest) || charsContain needle rest

/-- Embeds the Python `sub in s` substring test on strings. -/
def strContains (s sub : String) : Bool :=
  charsContain sub.data s.data

/-- Dictionary lookup: `d.get(k)` on a Python dict modelled as an association list. -/
def dictGet (d : List (String × String)) (k : String) : Option String :=
  (d.find? (fun p => p.1 = k)).map Prod.snd

/-- `props.get(k, dflt)`: lookup with a default, as used on event properties. -/
def propGet (props : List (String × String)) (k dflt : String) : String :=
  (dictGet props k).getD dflt

/-- An Event Hub event as the pipeline sees it: `decoded` is the result of
`json.loads(event.body_as_str())` (`none` when the payload is malformed and
the parse raises), `properties` the AMQP application properties. -/
structure Event where
  decoded : Option (List (String × String))
  properties : List (String × String)

/-- `FailureInjectionConfig` / the three failure-injection fields of `Config`. -/
structure FailureInjectionConfig where
  enabled : Bool
  latency_probability : Rat
  error_probability : Rat
deriving DecidableEq

/-- The random draws consumed by one call to `maybe_inject_failure`:
the two `random.random()` draws, the `random.uniform(0.1, 2.0)` delay,
and the `random.choice` index over the four error types. -/
structure RandomDraws where
  latencyDraw : Rat
  latencyDelay : Rat
  errorDraw : Rat
  errorChoice : Fin 4

/-- The `error_types` list of `maybe_inject_failure`. -/
def error_types : Fin 4 → String
  | 0 => "network"
  | 1 => "database"
  | 2 => "processing"
  | 3 => "timeout"

/-- Observable outcome of one `maybe_inject_failure` call: the injected sleep
duration, if any, and the raised simulated error message, if any. -/
structure InjectionOutcome where
  injectedDelay : Option Rat
  injectedError : Option String
deriving DecidableEq

/-- `maybe_inject_failure(operation)`: no-op when injection is disabled;
otherwise possibly sleeps, then possibly raises a classified simulated error. -/
def maybe_inject_failure (cfg : FailureInjectionConfig) (operation : String)
    (d : RandomDraws) : InjectionOutcome :=
  if ¬ cfg.enabled then ⟨none, none⟩
  else
    let dly := if d.latencyDraw < cfg.latency_probability then some d.latencyDelay else none
    let err := if d.errorDraw < cfg.error_probability then
        some ("Simulated " ++ error_types d.errorChoice ++ " error in " ++ operation)
      else none
    ⟨dly, err⟩

/-- `POST /failure-injection`: replaces all three fields of the global config
with the posted `FailureInjectionConfig`. -/
def configure_failure_injection (config_update : FailureInjectionConfig)
    (_old : FailureInjectionConfig) : FailureInjectionConfig :=
  config_update

/-- The document built by `store_processed_event` and upserted into Cosmos. -/
structure Document where
  id : String
  eventType : String
  eventData : List (String × String)
  processedAt : Nat
  processingService : String
deriving DecidableEq

/-- The document id computed in `store_processed_event`:
`f"{event_type}_{order_id}"` where `order_id` is `event_data.get("OrderId",
f"unknown_{int(time.time() * 1000)}")`. -/
def document_id (event_type : String) (event_data : List (String × String))
    (nowMs : Nat) : String :=
  event_type ++ "_" ++ ((dictGet event_data "OrderId").getD ("unknown_" ++ toString nowMs))

/-- Cosmos `upsert_item` semantics on a keyed store: overwrite the entry with
the document id if present, insert otherwise. -/
def upsert_item (doc : Document) (store : List (String × Document)) :
    List (String × Document) :=
  if store.any (fun p => p.1 = doc.id) then
    store.map (fun p => if p.1 = doc.id then (doc.id, doc) else p)
  else
    (doc.id, doc) :: store

/-- Number of surviving documents under a given id. -/
def countId (id : String) (store : List (String × Document)) : Nat :=
  store.countP (fun p => p.1 = id)

/-- Result of the awaited Cosmos `upsert_item` call: success, or an exception
whose string representation is `msg`. -/
inductive CosmosResult
  | ok
  | err (msg : String)
deriving DecidableEq

/-- Terminal outcome of the store write path as `store_processed_event`
classifies it: stored, duplicate (conflict treated as success), or a swallowed
failure. -/
inductive StoreOutcome
  | stored
  | duplicate
  | failed
deriving DecidableEq

/-- Effect of one `store_processed_event` call: the new store contents, the
classified outcome, and the log records it emits. -/
structure StoreEffect where
  store : List (String × Document)
  outcome : StoreOutcome
  logs : List (LogLevel × String)

/-- `store_processed_event`: builds the deterministic-id document, upserts it,
and catches every exception inside the call: a `Conflict`/`409` error string is
logged at warning level as a duplicate already processed, any other error is
logged at error level; nothing is re-raised. -/
def store_processed_event (cosRes : CosmosResult)
    (event_data : List (String × String)) (event_type : String) (nowMs : Nat)
    (store : List (String × Document)) : StoreEffect :=
  let doc : Document :=
    { id := document_id event_type event_data nowMs
      eventType := event_type
      eventData := event_data
      processedAt := nowMs
      processingService := "event-processor" }
  match cosRes with
  | .ok =>
      ⟨upsert_item doc store, .stored, [(.info, "Event stored in Cosmos DB")]⟩
  | .err msg =>
      if strContains msg "Conflict" && strContains msg "409" then
        ⟨store, .duplicate,
          [(.warning, "Duplicate event already processed (concurrent partition)")]⟩
      else
        ⟨store, .failed, [(.error, "Failed to store event in Cosmos DB")]⟩

/-- A cached recent-activity entry (`event_summary` in `cache_event_summary`). -/
structure RecentActivityEntry where
  timestamp : Nat
  type : String
  data : List (String × String)
deriving DecidableEq

/-- The Redis value at one key: the list of entries and the last TTL set. -/
structure CacheEntry where
  items : List RecentActivityEntry
  ttl : Nat
deriving DecidableEq

/-- Redis state: association of keys to list values. -/
def RedisState := List (String × CacheEntry)

/-- The cache key `f"recent_events:{event_type}"`. -/
def cacheKey (event_type : String) : String :=
  "recent_events:" ++ event_type

/-- Read the value at a key (missing key reads as an empty list). -/
def cacheGet (r : RedisState) (k : String) : CacheEntry :=
  ((r.find? (fun p => p.1 = k)).map Prod.snd).getD ⟨[], 0⟩

/-- Overwrite the value at a key. -/
def cacheSet (k : String) (e : CacheEntry) (r : RedisState) : RedisState :=
  (k, e) :: r.filter (fun p => ¬ p.1 = k)

/-- `cache_event_summary`: `lpush` the summary, `ltrim` to indices 0..99, set
a 3600 second expiry; every exception is caught and logged, never re-raised.
`cacheOk` is whether the Redis calls succeed. -/
def cache_event_summary (cacheOk : Bool) (event_data : List (String × String))
    (event_type : String) (nowMs : Nat) (r : RedisState) :
    RedisState × List (LogLevel × String) :=
  if cacheOk then
    let key := cacheKey event_type
    let entry := cacheGet r key
    let summary : RecentActivityEntry := ⟨nowMs, event_type, event_data⟩
    (cacheSet key ⟨(summary :: entry.items).take 100, 3600⟩ r, [])
  else
    (r, [(.error, "Failed to cache event summary")])

/-- The external results consumed while processing one event: the fault
injector draws, the Cosmos write result, Redis reachability, and the clock. -/
structure PerEventEnv where
  draws : RandomDraws
  cosmosRes : CosmosResult
  cacheOk : Bool
  nowMs : Nat

/-- The mutable world threaded through the pipeline: store and cache
contents, the metric counters, the number of checkpoint updates, and the
emitted log records. -/
structure World where
  store : List (String × Document)
  cache : RedisState
  processedCount : Nat
  errorCount : Nat
  checkpoints : Nat
  logs : List (LogLevel × String)

/-- Terminal per-event outcome: processed successfully (with its type and
source labels) or failed with a recorded error. -/
inductive EventOutcome
  | success (event_type source : String)
  | failure (errMsg : String)
deriving DecidableEq

/-- `process_single_event`: decode the payload, read the type and source
properties, call the fault injector, dispatch to the type handler, then (when
configured) write the store and the cache, and record metrics.  The whole body
sits in a `try`/`except` so every path ends in a terminal outcome: decode
failures and injected errors are logged and counted, store and cache failures
are already swallowed inside their own calls. -/
def process_single_event (cfg : FailureInjectionConfig)
    (cosmosConfigured redisConfigured : Bool) (ev : Event) (env : PerEventEnv)
    (w : World) : World × EventOutcome :=
  match ev.decoded with
  | none =>
      ({ w with
          errorCount := w.errorCount + 1
          logs := w.logs ++ [(.error, "Event processing failed")] },
        .failure "malformed payload")
  | some event_body =>
      let event_type := propGet ev.properties "EventType" "Unknown"
      let source := propGet ev.properties "Source" "Unknown"
      match (maybe_inject_failure cfg "process_event" env.draws).injectedError with
      | some e =>
          ({ w with
              errorCount := w.errorCount + 1
              logs := w.logs ++ [(.error, "Event processing failed")] },
            .failure e)
      | none =>
          let w1 :=
            if cosmosConfigured then
              let se := store_processed_event env.cosmosRes event_body event_type env.nowMs w.store
              { w with store := se.store, logs := w.logs ++ se.logs }
            else w
          let w2 :=
            if redisConfigured then
              let ce := cache_event_summary env.cacheOk event_body event_type env.nowMs w1.cache
              { w1 with cache := ce.1, logs := w1.logs ++ ce.2 }
            else w1
          ({ w2 with
              processedCount := w2.processedCount + 1
              logs := w2.logs ++ [(.info, "Event processed successfully")] },
            .success event_type source)

/-- The terminal outcome of one event depends only on its decode result and
the fault-injector draws (store and cache failures are swallowed). -/
def singleOutcome (cfg : FailureInjectionConfig) (ev : Event) (env : PerEventEnv) :
    EventOutcome :=
  match ev.decoded with
  | none => .failure "malformed payload"
  | some _ =>
      match (maybe_inject_failure cfg "process_event" env.draws).injectedError with
      | some e => .failure e
      | none =>
          .success (propGet ev.properties "EventType" "Unknown")
            (propGet ev.properties "Source" "Unknown")

/-- The `for event in event_batch` loop of `on_event_batch`: process each
event in arrival order, collecting the terminal outcomes. -/
def runBatch (cfg : FailureInjectionConfig) (cc rc : Bool) :
    List (Event × PerEventEnv) → World → World × List EventOutcome
  | [], w => (w, [])
  | p :: rest, w =>
      let r1 := process_single_event cfg cc rc p.1 p.2 w
      let r2 := runBatch cfg cc rc rest r1.1
      (r2.1, r1.2 :: r2.2)

/-- Observable actions of one batch callback, in order. -/
inductive BatchAction
  | procEvent (outcome : EventOutcome)
  | checkpoint
deriving DecidableEq

/-- `on_event_batch`: run the per-event pipeline over the whole batch, then
`update_checkpoint` once. -/
def on_event_batch (cfg : FailureInjectionConfig) (cc rc : Bool)
    (batch : List (Event × PerEventEnv)) (w : World) :
    World × List BatchAction :=
  let r := runBatch cfg cc rc batch w
  ({ r.1 with checkpoints := r.1.checkpoints + 1 },
    r.2.map BatchAction.procEvent ++ [BatchAction.checkpoint])

/-- The `EventProcessor` instance fields the lifecycle claims read. -/
structure EventProcessor where
  redis_client : Bool
  cosmos_container : Bool
  consumer_client : Bool
  producer_client : Bool
  running : Bool
deriving DecidableEq

/-- `EventProcessor.__init__`: no clients, not running. -/
def initialEventProcessor : EventProcessor :=
  ⟨false, false, false, false, false⟩

/-- The environment-derived configuration fields `initialize` reads. -/
structure AppConfig where
  event_hub_connection_string : String
  cosmos_endpoint : String
  cosmos_key : String

/-- `initialize`: always constructs the Redis client and pings it — a failed
ping raises (the exception is recorded and re-raised, returned here as
`some` message).  The Cosmos container is created only when both endpoint and
key are non-empty, the Event Hub clients only when the connection string is
non-empty; neither is connectivity-checked. -/
def initializeProcessor (cfg : AppConfig) (redisPingOk : Bool)
    (p : EventProcessor) : EventProcessor × Option String :=
  let p := { p with redis_client := true }
  if ¬ redisPingOk then
    (p, some "Failed to initialize event processor")
  else
    let p :=
      if cfg.cosmos_endpoint ≠ "" ∧ cfg.cosmos_key ≠ "" then
        { p with cosmos_container := true }
      else p
    let p :=
      if cfg.event_hub_connection_string ≠ "" then
        { p with consumer_client := true, producer_client := true }
      else p
    (p, none)

/-- How `process_events` exits: early return because the consumer client was
never initialized, normal completion of the receive loop, or a caught fatal
loop exception. -/
inductive LoopExit
  | noConsumer
  | loopCompleted
  | loopFailed (e : String)
deriving DecidableEq

/-- `process_events`: return immediately when there is no consumer client;
otherwise set `running := true` and run the receive loop, catching any fatal
exception.  No path assigns `running := false`. -/
def process_events (p : EventProcessor) (loopResult : Except String Unit) :
    EventProcessor × LoopExit :=
  if ¬ p.consumer_client then
    (p, .noConsumer)
  else
    let p := { p with running := true }
    match loopResult with
    | .ok _ => (p, .loopCompleted)
    | .error e => (p, .loopFailed e)

/-- Result of the `POST /start-processing` endpoint. -/
inductive StartResult
  | rejected (status : Nat) (detail : String)
  | started
deriving DecidableEq

/-- `start_processing`: raise a 400 `HTTPException` when already running,
otherwise create the background processing task. -/
def start_processing (p : EventProcessor) : StartResult × EventProcessor :=
  if p.running then
    (.rejected 400 "Event processing already running", p)
  else
    (.started, p)

/-! ### Helper lemmas -/

theorem process_single_event_outcome (cfg : FailureInjectionConfig)
    (cc rc : Bool) (ev : Event) (env : PerEventEnv) (w : World) :
    (process_single_event cfg cc rc ev env w).2 = singleOutcome cfg ev env := by
  unfold process_single_event singleOutcome
  cases ev.decoded with
  | none => rfl
  | some body =>
      cases (maybe_inject_failure cfg "process_event" env.draws).injectedError with
      | none => rfl
      | some e => rfl

theorem runBatch_trace (cfg : FailureInjectionConfig) (cc rc : Bool) :
    ∀ (batch : List (Event × PerEventEnv)) (w : World),
      (runBatch cfg cc rc batch w).2 =
        batch.map (fun p => singleOutcome cfg p.1 p.2) := by
  intro batch
  induction batch with
  | nil => intro w; rfl
  | cons p rest ih =>
      intro w
      simp only [runBatch, List.map_cons]
      rw [ih, process_single_event_outcome]

theorem runBatch_checkpoints (cfg : FailureInjectionConfig) (cc rc : Bool) :
    ∀ (batch : List (Event × PerEventEnv)) (w : World),
      (runBatch cfg cc rc batch w).1.checkpoints = w.checkpoints := by
  intro batch
  induction batch with
  | nil => intro w; rfl
  | cons p rest ih =>
      intro w
      simp only [runBatch]
      rw [ih]
      unfold process_single_event
      cases p.1.decoded with
      | none => rfl
      | some body =>
          cases (maybe_inject_failure cfg "process_event" p.2.draws).injectedError with
          | some e => rfl
          | none => cases cc <;> cases rc <;> rfl

theorem checkpoint_count_zero {α : Type} (g : α → EventOutcome) (l : List α) :
    List.count BatchAction.checkpoint (l.map (fun a => BatchAction.procEvent (g a))) = 0 := by
  rw [List.count_eq_zero]
  intro hmem
  rcases List.mem_map.mp hmem with ⟨o, _, ho⟩
  cases ho

theorem on_event_batch_trace (cfg : FailureInjectionConfig) (cc rc : Bool)
    (batch : List (Event × PerEventEnv)) (w : World) :
    (on_event_batch cfg cc rc batch w).2 =
      batch.map (fun p => BatchAction.procEvent (singleOutcome cfg p.1 p.2)) ++
        [BatchAction.checkpoint] := by
  simp only [on_event_batch]
  rw [runBatch_trace]
  simp [Function.comp]

theorem countId_upsert_self (doc : Document) (store : List (String × Document))
    (h : countId doc.id store ≤ 1) :
    countId doc.id (upsert_item doc store) = 1 := by
  unfold upsert_item countId
  by_cases hany : store.any (fun p => p.1 = doc.id) = true
  · rw [if_pos hany]
    have hmapeq :
        (store.map (fun p => if p.1 = doc.id then (doc.id, doc) else p)).countP
          (fun p => decide (p.1 = doc.id)) =
        store.countP (fun p => decide (p.1 = doc.id)) := by
      rw [List.countP_map]
      apply List.countP_congr
      intro p _
      by_cases hp : p.1 = doc.id
      · simp [hp]
      · simp [hp]
    have hpos : 0 < store.countP (fun p => decide (p.1 = doc.id)) := by
      rw [List.countP_pos_iff]
      rcases List.any_eq_true.mp hany with ⟨p, hpmem, hpp⟩
      exact ⟨p, hpmem, by simpa using hpp⟩
    have hle : store.countP (fun p => decide (p.1 = doc.id)) ≤ 1 := by
      unfold countId at h
      exact h
    rw [hmapeq]
    omega
  · rw [if_neg hany]
    have hzero : store.countP (fun p => decide (p.1 = doc.id)) = 0 := by
      rw [List.countP_eq_zero]
      intro p hpmem
      have hfalse := List.any_eq_false.mp (Bool.eq_false_iff.mpr hany) p hpmem
      simpa using hfalse
    simp [List.countP_cons, hzero]

theorem countId_fold_deliveries (event_type : String)
    (event_data : List (String × String)) (oid : String)
    (hoid : dictGet event_data "OrderId" = some oid) :
    ∀ (ts : List Nat) (store : List (String × Document)),
      ts ≠ [] →
      countId (event_type ++ "_" ++ oid) store ≤ 1 →
      countId (event_type ++ "_" ++ oid)
        (ts.foldl
          (fun s t => (store_processed_event .ok event_data event_type t s).store)
          store) = 1 := by
  intro ts
  induction ts with
  | nil => intro store hne _; exact absurd rfl hne
  | cons t rest ih =>
      intro store _ hle
      have hstep :
          (store_processed_event .ok event_data event_type t store).store =
            upsert_item
              { id := event_type ++ "_" ++ oid
                eventType := event_type
                eventData := event_data
                processedAt := t
                processingService := "event-processor" } store := by
        unfold store_processed_event document_id
        rw [hoid]
        rfl
      have hone :
          countId (event_type ++ "_" ++ oid)
            (store_processed_event .ok event_data event_type t store).store = 1 := by
        rw [hstep]
        exact countId_upsert_self
          { id := event_type ++ "_" ++ oid
            eventType := event_type
            eventData := event_data
            processedAt := t
            processingService := "event-processor" } store hle
      cases rest with
      | nil =>
          simpa using hone
      | cons t2 rest2 =>
          simp only [List.foldl_cons]
          have ih2 := ih (store_processed_event .ok event_data event_type t store).store
            (by simp) (le_of_eq hone)
          simpa using ih2

theorem cacheGet_cacheSet (k : String) (e : CacheEntry) (r : RedisState) :
    cacheGet (cacheSet k e r) k = e := by
  unfold cacheGet cacheSet
  simp [List.find?]

theorem cache_write_shape (d : List (String × String)) (event_type : String)
    (t : Nat) (r : RedisState) :
    cacheGet (cache_event_summary true d event_type t r).1 (cacheKey event_type) =
      ⟨(⟨t, event_type, d⟩ :: (cacheGet r (cacheKey event_type)).items).take 100, 3600⟩ := by
  unfold cache_event_summary
  simpa using cacheGet_cacheSet (cacheKey event_type)
    ⟨(⟨t, event_type, d⟩ :: (cacheGet r (cacheKey event_type)).items).take 100, 3600⟩ r

theorem cache_fold_last (event_type : String) :
    ∀ (writes : List (List (String × String) × Nat)) (r : RedisState),
      writes ≠ [] →
      ∃ d t r2,
        writes.foldl (fun acc wr => (cache_event_summary true wr.1 event_type wr.2 acc).1) r =
          (cache_event_summary true d event_type t r2).1 := by
  intro writes
  induction writes with
  | nil => intro r h; exact absurd rfl h
  | cons w ws ih =>
      intro r _
      cases ws with
      | nil => exact ⟨w.1, w.2, r, by simp⟩
      | cons w2 ws2 =>
          rcases ih ((cache_event_summary true w.1 event_type w.2 r).1) (by simp)
            with ⟨d, t, r2, hE⟩
          exact ⟨d, t, r2, by simpa using hE⟩

/-! ### Claim theorems -/

/-- Claim C1: for every event whose body contains an `OrderId`, the persisted
document id equals `{eventType}_{OrderId}` — deterministic from event content,
independent of the clock — so repeated delivery of the same event targets the
same id and the upsert leaves exactly one surviving document under that id. -/
theorem C1_deterministic_id_idempotent_upsert
    (event_type oid : String) (event_data : List (String × String))
    (store : List (String × Document)) (ts : List Nat)
    (hoid : dictGet event_data "OrderId" = some oid)
    (hne : ts ≠ [])
    (hstore : countId (event_type ++ "_" ++ oid) store ≤ 1) :
    (∀ t : Nat, document_id event_type event_data t = event_type ++ "_" ++ oid) ∧
    countId (event_type ++ "_" ++ oid)
      (ts.foldl
        (fun s t => (store_processed_event .ok event_data event_type t s).store)
        store) = 1 := by
  constructor
  · intro t
    unfold document_id
    rw [hoid]
    rfl
  · exact countId_fold_deliveries event_type event_data oid hoid ts store hne hstore

/-- Witness for C1: two redeliveries of the same `OrderCreated` event with
`OrderId` `O1` into an empty store leave exactly one `OrderCreated_O1`
document. -/
theorem C1_deterministic_id_idempotent_upsert_witness :
    document_id "OrderCreated" [("OrderId", "O1"), ("CustomerId", "C1")] 42 =
        "OrderCreated" ++ "_" ++ "O1" ∧
    countId ("OrderCreated" ++ "_" ++ "O1")
      (([1, 2] : List Nat).foldl
        (fun s t =>
          (store_processed_event .ok [("OrderId", "O1"), ("CustomerId", "C1")]
            "OrderCreated" t s).store)
        []) = 1 :=
  ⟨(C1_deterministic_id_idempotent_upsert "OrderCreated" "O1"
      [("OrderId", "O1"), ("CustomerId", "C1")] [] [1, 2] (by decide) (by decide)
      (by decide)).1 42,
   (C1_deterministic_id_idempotent_upsert "OrderCreated" "O1"
      [("OrderId", "O1"), ("CustomerId", "C1")] [] [1, 2] (by decide) (by decide)
      (by decide)).2⟩

/-- Claim C2: for every batch handed to the intake loop, the partition
checkpoint is advanced exactly once, only after every event in the batch has
reached a terminal per-event outcome: the batch trace is one terminal outcome
per event followed by a single final checkpoint, never mid-batch, never
skipped. -/
theorem C2_checkpoint_once_after_every_event (cfg : FailureInjectionConfig)
    (cc rc : Bool) (batch : List (Event × PerEventEnv)) (w : World) :
    (on_event_batch cfg cc rc batch w).2 =
      batch.map (fun p => BatchAction.procEvent (singleOutcome cfg p.1 p.2)) ++
        [BatchAction.checkpoint] ∧
    List.count BatchAction.checkpoint (on_event_batch cfg cc rc batch w).2 = 1 ∧
    (on_event_batch cfg cc rc batch w).1.checkpoints = w.checkpoints + 1 := by
  refine ⟨on_event_batch_trace cfg cc rc batch w, ?_, ?_⟩
  · rw [on_event_batch_trace, List.count_append, checkpoint_count_zero]
    decide
  · simp only [on_event_batch]
    rw [runBatch_checkpoints]

/-- Claim C3: a malformed event payload fails only that single event — the
error is logged and counted — while every other event in the same batch is
still processed with its own outcome, and the batch still ends with its
checkpoint (the batch is not aborted). -/
theorem C3_malformed_event_fails_only_itself (cfg : FailureInjectionConfig)
    (cc rc : Bool) (pre post : List (Event × PerEventEnv)) (bad : Event)
    (env : PerEventEnv) (w : World) (hbad : bad.decoded = none) :
    (∀ w2 : World,
      process_single_event cfg cc rc bad env w2 =
        ({ w2 with
            errorCount := w2.errorCount + 1
            logs := w2.logs ++ [(LogLevel.error, "Event processing failed")] },
          EventOutcome.failure "malformed payload")) ∧
    (on_event_batch cfg cc rc (pre ++ (bad, env) :: post) w).2 =
      pre.map (fun p => BatchAction.procEvent (singleOutcome cfg p.1 p.2)) ++
        BatchAction.procEvent (EventOutcome.failure "malformed payload") ::
          (post.map (fun p => BatchAction.procEvent (singleOutcome cfg p.1 p.2)) ++
            [BatchAction.checkpoint]) := by
  constructor
  · intro w2
    unfold process_single_event
    rw [hbad]
  · rw [on_event_batch_trace]
    simp [singleOutcome, hbad]

/-- Witness for C3: a two-event batch whose first event has a malformed
payload still processes the second event and checkpoints. -/
theorem C3_malformed_event_fails_only_itself_witness :
    (process_single_event ⟨false, 0, 0⟩ true true ⟨none, []⟩
        ⟨⟨0, 0, 0, 0⟩, .ok, true, 0⟩ ⟨[], [], 0, 0, 0, []⟩ =
        ({ (⟨[], [], 0, 0, 0, []⟩ : World) with
            errorCount := (⟨[], [], 0, 0, 0, []⟩ : World).errorCount + 1
            logs := (⟨[], [], 0, 0, 0, []⟩ : World).logs ++
              [(LogLevel.error, "Event processing failed")] },
          EventOutcome.failure "malformed payload")) ∧
    (on_event_batch ⟨false, 0, 0⟩ true true
      ([] ++ (⟨none, []⟩, ⟨⟨0, 0, 0, 0⟩, .ok, true, 0⟩) ::
        [(⟨some [("OrderId", "O1")], [("EventType", "OrderCreated")]⟩,
          ⟨⟨0, 0, 0, 0⟩, .ok, true, 0⟩)])
      ⟨[], [], 0, 0, 0, []⟩).2 =
      ([] : List (Event × PerEventEnv)).map
          (fun p => BatchAction.procEvent (singleOutcome ⟨false, 0, 0⟩ p.1 p.2)) ++
        BatchAction.procEvent (EventOutcome.failure "malformed payload") ::
          (List.map (fun p => BatchAction.procEvent (singleOutcome ⟨false, 0, 0⟩ p.1 p.2))
            [(⟨some [("OrderId", "O1")], [("EventType", "OrderCreated")]⟩,
              ⟨⟨0, 0, 0, 0⟩, .ok, true, 0⟩)] ++
            [BatchAction.checkpoint]) :=
  ⟨(C3_malformed_event_fails_only_itself ⟨false, 0, 0⟩ true true []
      [(⟨some [("OrderId", "O1")], [("EventType", "OrderCreated")]⟩,
        ⟨⟨0, 0, 0, 0⟩, .ok, true, 0⟩)]
      ⟨none, []⟩ ⟨⟨0, 0, 0, 0⟩, .ok, true, 0⟩ ⟨[], [], 0, 0, 0, []⟩ rfl).1
      ⟨[], [], 0, 0, 0, []⟩,
   (C3_malformed_event_fails_only_itself ⟨false, 0, 0⟩ true true []
      [(⟨some [("OrderId", "O1")], [("EventType", "OrderCreated")]⟩,
        ⟨⟨0, 0, 0, 0⟩, .ok, true, 0⟩)]
      ⟨none, []⟩ ⟨⟨0, 0, 0, 0⟩, .ok, true, 0⟩ ⟨[], [], 0, 0, 0, []⟩ rfl).2⟩

/-- Claim C4: a store write failing with a write-conflict (a `Conflict` 409
response) is treated as success: logged at warning level as a duplicate
already processed, the store left as is, and nothing raised to the caller. -/
theorem C4_conflict_treated_as_duplicate (msg event_type : String)
    (event_data : List (String × String)) (nowMs : Nat)
    (store : List (String × Document))
    (hc : strContains msg "Conflict" = true) (h9 : strContains msg "409" = true) :
    store_processed_event (.err msg) event_data event_type nowMs store =
      ⟨store, .duplicate,
        [(LogLevel.warning, "Duplicate event already processed (concurrent partition)")]⟩ := by
  simp [store_processed_event, hc, h9]

/-- Witness for C4: a concrete `409 Conflict` error string from the store is
classified as a duplicate with a warning log and an unchanged store. -/
theorem C4_conflict_treated_as_duplicate_witness :
    store_processed_event (.err "Status code 409: Conflict")
      [("OrderId", "O1")] "OrderCreated" 5 [] =
      ⟨[], .duplicate,
        [(LogLevel.warning, "Duplicate event already processed (concurrent partition)")]⟩ :=
  C4_conflict_treated_as_duplicate "Status code 409: Conflict" "OrderCreated"
    [("OrderId", "O1")] 5 [] (by decide) (by decide)

/-- Claim C5: a non-conflict failure of the idempotent store write, or a
failure of the recent-activity cache write, is caught inside that write path
(logged there) and never propagates: the event still ends in success, it is
still counted as processed, and the batch keeps progressing. -/
theorem C5_store_cache_failures_swallowed (cfg : FailureInjectionConfig)
    (ev : Event) (body : List (String × String)) (env : PerEventEnv) (w : World)
    (msg : String) (hdec : ev.decoded = some body)
    (hinj : (maybe_inject_failure cfg "process_event" env.draws).injectedError = none) :
    ((env.cosmosRes = CosmosResult.err msg ∧
        (strContains msg "Conflict" && strContains msg "409") = false) →
      ((process_single_event cfg true true ev env w).2 =
          EventOutcome.success (propGet ev.properties "EventType" "Unknown")
            (propGet ev.properties "Source" "Unknown") ∧
        (process_single_event cfg true true ev env w).1.processedCount =
          w.processedCount + 1 ∧
        (process_single_event cfg true true ev env w).1.store = w.store ∧
        (LogLevel.error, "Failed to store event in Cosmos DB") ∈
          (process_single_event cfg true true ev env w).1.logs)) ∧
    (env.cacheOk = false →
      ((process_single_event cfg true true ev env w).2 =
          EventOutcome.success (propGet ev.properties "EventType" "Unknown")
            (propGet ev.properties "Source" "Unknown") ∧
        (process_single_event cfg true true ev env w).1.processedCount =
          w.processedCount + 1 ∧
        (process_single_event cfg true true ev env w).1.cache = w.cache ∧
        (LogLevel.error, "Failed to cache event summary") ∈
          (process_single_event cfg true true ev env w).1.logs)) := by
  constructor
  · rintro ⟨hres, hncf⟩
    cases hca : env.cacheOk <;>
      simp [process_single_event, hdec, hinj, hres, hncf, hca,
        store_processed_event, cache_event_summary]
  · intro hca
    simp [process_single_event, hdec, hinj, hca, cache_event_summary]

/-- Witness for C5: a store outage (`Internal error 500`) plus an unreachable
cache still leave the event successful and counted. -/
theorem C5_store_cache_failures_swallowed_witness :
    ((process_single_event ⟨false, 0, 0⟩ true true
        ⟨some [("OrderId", "O1")], [("EventType", "OrderCreated"), ("Source", "test")]⟩
        ⟨⟨0, 0, 0, 0⟩, .err "Internal error 500", false, 7⟩ ⟨[], [], 0, 0, 0, []⟩).2 =
        EventOutcome.success
          (propGet [("EventType", "OrderCreated"), ("Source", "test")] "EventType" "Unknown")
          (propGet [("EventType", "OrderCreated"), ("Source", "test")] "Source" "Unknown") ∧
      (process_single_event ⟨false, 0, 0⟩ true true
        ⟨some [("OrderId", "O1")], [("EventType", "OrderCreated"), ("Source", "test")]⟩
        ⟨⟨0, 0, 0, 0⟩, .err "Internal error 500", false, 7⟩
        ⟨[], [], 0, 0, 0, []⟩).1.processedCount = (0 : Nat) + 1 ∧
      (process_single_event ⟨false, 0, 0⟩ true true
        ⟨some [("OrderId", "O1")], [("EventType", "OrderCreated"), ("Source", "test")]⟩
        ⟨⟨0, 0, 0, 0⟩, .err "Internal error 500", false, 7⟩
        ⟨[], [], 0, 0, 0, []⟩).1.store = ([] : List (String × Document)) ∧
      (LogLevel.error, "Failed to store event in Cosmos DB") ∈
        (process_single_event ⟨false, 0, 0⟩ true true
          ⟨some [("OrderId", "O1")], [("EventType", "OrderCreated"), ("Source", "test")]⟩
          ⟨⟨0, 0, 0, 0⟩, .err "Internal error 500", false, 7⟩
          ⟨[], [], 0, 0, 0, []⟩).1.logs) ∧
    ((process_single_event ⟨false, 0, 0⟩ true true
        ⟨some [("OrderId", "O1")], [("EventType", "OrderCreated"), ("Source", "test")]⟩
        ⟨⟨0, 0, 0, 0⟩, .err "Internal error 500", false, 7⟩ ⟨[], [], 0, 0, 0, []⟩).2 =
        EventOutcome.success
          (propGet [("EventType", "OrderCreated"), ("Source", "test")] "EventType" "Unknown")
          (propGet [("EventType", "OrderCreated"), ("Source", "test")] "Source" "Unknown") ∧
      (process_single_event ⟨false, 0, 0⟩ true true
        ⟨some [("OrderId", "O1")], [("EventType", "OrderCreated"), ("Source", "test")]⟩
        ⟨⟨0, 0, 0, 0⟩, .err "Internal error 500", false, 7⟩
        ⟨[], [], 0, 0, 0, []⟩).1.processedCount = (0 : Nat) + 1 ∧
      (process_single_event ⟨false, 0, 0⟩ true true
        ⟨some [("OrderId", "O1")], [("EventType", "OrderCreated"), ("Source", "test")]⟩
        ⟨⟨0, 0, 0, 0⟩, .err "Internal error 500", false, 7⟩
        ⟨[], [], 0, 0, 0, []⟩).1.cache = ([] : RedisState) ∧
      (LogLevel.error, "Failed to cache event summary") ∈
        (process_single_event ⟨false, 0, 0⟩ true true
          ⟨some [("OrderId", "O1")], [("EventType", "OrderCreated"), ("Source", "test")]⟩
          ⟨⟨0, 0, 0, 0⟩, .err "Internal error 500", false, 7⟩
          ⟨[], [], 0, 0, 0, []⟩).1.logs) :=
  ⟨(C5_store_cache_failures_swallowed ⟨false, 0, 0⟩
      ⟨some [("OrderId", "O1")], [("EventType", "OrderCreated"), ("Source", "test")]⟩
      [("OrderId", "O1")] ⟨⟨0, 0, 0, 0⟩, .err "Internal error 500", false, 7⟩
      ⟨[], [], 0, 0, 0, []⟩ "Internal error 500" rfl rfl).1 ⟨rfl, by decide⟩,
   (C5_store_cache_failures_swallowed ⟨false, 0, 0⟩
      ⟨some [("OrderId", "O1")], [("EventType", "OrderCreated"), ("Source", "test")]⟩
      [("OrderId", "O1")] ⟨⟨0, 0, 0, 0⟩, .err "Internal error 500", false, 7⟩
      ⟨[], [], 0, 0, 0, []⟩ "Internal error 500" rfl rfl).2 rfl⟩

/-- Claim C6 counterexample: `process_events` exiting normally with a
configured consumer client leaves `running` true — it does not transition
the run state back to stopped. -/
theorem C6_counterexample :
    ¬ ((process_events ⟨true, true, true, true, false⟩
        (Except.ok ())).1.running = false) := by
  decide

/-- Claim C6 amended: whenever `process_events` exits after launching the
receive loop (consumer client configured), `running` remains true — the code
never resets it to false; `running` is false on exit only on the early-return
path where the consumer client is absent and `running` was never set. -/
theorem C6_running_persists_on_exit (p : EventProcessor)
    (loopResult : Except String Unit) (h : p.consumer_client = true) :
    (process_events p loopResult).1.running = true := by
  cases loopResult <;> simp [process_events, h]

/-- Witness for the amended C6: a fatal loop error still leaves `running`
true. -/
theorem C6_running_persists_on_exit_witness :
    (process_events ⟨true, true, true, false, false⟩
      (Except.error "consumer failed")).1.running = true :=
  C6_running_persists_on_exit ⟨true, true, true, false, false⟩
    (Except.error "consumer failed") rfl

/-- Claim C7: calling start-processing while already running is rejected with
an HTTP error (status 400, detail "Event processing already running"), the
run state stays true, and no background task is launched; otherwise the call
launches the intake loop as a background task. -/
theorem C7_start_processing_guard (p : EventProcessor) :
    (p.running = true →
      start_processing p =
        (StartResult.rejected 400 "Event processing already running", p) ∧
      (start_processing p).2.running = true) ∧
    (p.running = false → start_processing p = (StartResult.started, p)) := by
  constructor
  · intro h
    constructor <;> simp [start_processing, h]
  · intro h
    simp [start_processing, h]

/-- Witness for C7: a second start on a running processor is rejected and the
state stays running; a start on a stopped processor launches the loop. -/
theorem C7_start_processing_guard_witness :
    (start_processing ⟨true, true, true, true, true⟩ =
      (StartResult.rejected 400 "Event processing already running",
        ⟨true, true, true, true, true⟩) ∧
      (start_processing ⟨true, true, true, true, true⟩).2.running = true) ∧
    start_processing initialEventProcessor = (StartResult.started, initialEventProcessor) :=
  ⟨(C7_start_processing_guard ⟨true, true, true, true, true⟩).1 rfl,
   (C7_start_processing_guard initialEventProcessor).2 rfl⟩

/-- Claim C8: every recent-activity write prepends the new entry, truncates
the list at key `recent_events:{eventType}` to the most recent 100 entries,
and resets the key expiry to 3600 seconds; hence the list never exceeds 100
entries under any number of writes. -/
theorem C8_cache_bounded (event_type : String)
    (writes : List (List (String × String) × Nat)) (r : RedisState)
    (hne : writes ≠ []) :
    (∀ (d : List (String × String)) (t : Nat) (r2 : RedisState),
      cacheGet (cache_event_summary true d event_type t r2).1 (cacheKey event_type) =
        ⟨(⟨t, event_type, d⟩ :: (cacheGet r2 (cacheKey event_type)).items).take 100,
          3600⟩) ∧
    (cacheGet
        (writes.foldl
          (fun acc wr => (cache_event_summary true wr.1 event_type wr.2 acc).1) r)
        (cacheKey event_type)).items.length ≤ 100 ∧
    (cacheGet
        (writes.foldl
          (fun acc wr => (cache_event_summary true wr.1 event_type wr.2 acc).1) r)
        (cacheKey event_type)).ttl = 3600 := by
  refine ⟨fun d t r2 => cache_write_shape d event_type t r2, ?_, ?_⟩
  · rcases cache_fold_last event_type writes r hne with ⟨d, t, r2, hE⟩
    rw [hE, cache_write_shape]
    exact List.length_take_le 100
      (⟨t, event_type, d⟩ :: (cacheGet r2 (cacheKey event_type)).items)
  · rcases cache_fold_last event_type writes r hne with ⟨d, t, r2, hE⟩
    rw [hE, cache_write_shape]

/-- Witness for C8: one write into an empty cache leaves one entry and a
3600 second expiry. -/
theorem C8_cache_bounded_witness :
    cacheGet (cache_event_summary true [("OrderId", "O1")] "OrderCreated" 5 []).1
        (cacheKey "OrderCreated") =
      ⟨(⟨5, "OrderCreated", [("OrderId", "O1")]⟩ ::
          (cacheGet [] (cacheKey "OrderCreated")).items).take 100, 3600⟩ ∧
    (cacheGet
        (([([("OrderId", "O1")], 5)] :
            List (List (String × String) × Nat)).foldl
          (fun acc wr => (cache_event_summary true wr.1 "OrderCreated" wr.2 acc).1) [])
        (cacheKey "OrderCreated")).items.length ≤ 100 ∧
    (cacheGet
        (([([("OrderId", "O1")], 5)] :
            List (List (String × String) × Nat)).foldl
          (fun acc wr => (cache_event_summary true wr.1 "OrderCreated" wr.2 acc).1) [])
        (cacheKey "OrderCreated")).ttl = 3600 :=
  ⟨(C8_cache_bounded "OrderCreated" [([("OrderId", "O1")], 5)] [] (by decide)).1
      [("OrderId", "O1")] 5 [],
   (C8_cache_bounded "OrderCreated" [([("OrderId", "O1")], 5)] [] (by decide)).2.1,
   (C8_cache_bounded "OrderCreated" [([("OrderId", "O1")], 5)] [] (by decide)).2.2⟩

/-- Claim C9: after the failure-injection policy is replaced with
`enabled = false`, every subsequent `maybe_inject_failure` call is a no-op:
no injected delay and no injected error, for any operation name and any
random draws. -/
theorem C9_disabled_injection_noop (old config_update : FailureInjectionConfig)
    (operation : String) (d : RandomDraws)
    (h : config_update.enabled = false) :
    maybe_inject_failure (configure_failure_injection config_update old)
      operation d = ⟨none, none⟩ := by
  simp [configure_failure_injection, maybe_inject_failure, h]

/-- Witness for C9: with injection disabled, draws of zero (below any
positive probability) still inject nothing. -/
theorem C9_disabled_injection_noop_witness :
    maybe_inject_failure
      (configure_failure_injection ⟨false, 1/2, 1/2⟩ ⟨true, 1/10, 1/20⟩)
      "process_event" ⟨0, 1, 0, 2⟩ = ⟨none, none⟩ :=
  C9_disabled_injection_noop ⟨true, 1/10, 1/20⟩ ⟨false, 1/2, 1/2⟩
    "process_event" ⟨0, 1, 0, 2⟩ rfl

/-- Claim C10: initialization always requires the Redis ping to succeed and
raises when it does not; the Cosmos container and Event Hub clients are
created exactly when their configuration is present, with no connectivity
check, so startup succeeds with them absent — and `process_events` then
returns immediately without error and without ever setting `running`. -/
theorem C10_init_dependencies (cfg : AppConfig)
    (loopResult : Except String Unit) (hcos : cfg.cosmos_endpoint = "")
    (hhub : cfg.event_hub_connection_string = "") :
    (∀ cfg2 : AppConfig,
      (initializeProcessor cfg2 false initialEventProcessor).2.isSome = true) ∧
    (∀ cfg2 : AppConfig,
      ((initializeProcessor cfg2 true initialEventProcessor).1.cosmos_container = true ↔
        (cfg2.cosmos_endpoint ≠ "" ∧ cfg2.cosmos_key ≠ "")) ∧
      ((initializeProcessor cfg2 true initialEventProcessor).1.consumer_client = true ↔
        cfg2.event_hub_connection_string ≠ "")) ∧
    (initializeProcessor cfg true initialEventProcessor).2 = none ∧
    (initializeProcessor cfg true initialEventProcessor).1.running = false ∧
    process_events (initializeProcessor cfg true initialEventProcessor).1 loopResult =
      ((initializeProcessor cfg true initialEventProcessor).1, LoopExit.noConsumer) := by
  have hinit : initializeProcessor cfg true initialEventProcessor =
      (⟨true, false, false, false, false⟩, none) := by
    simp [initializeProcessor, initialEventProcessor, hcos, hhub]
  refine ⟨?_, ?_, ?_, ?_, ?_⟩
  · intro cfg2
    simp [initializeProcessor]
  · intro cfg2
    constructor
    · by_cases h1 : cfg2.cosmos_endpoint ≠ "" ∧ cfg2.cosmos_key ≠ "" <;>
        by_cases h2 : cfg2.event_hub_connection_string ≠ "" <;>
          simp [initializeProcessor, initialEventProcessor, h1, h2]
    · by_cases h1 : cfg2.cosmos_endpoint ≠ "" ∧ cfg2.cosmos_key ≠ "" <;>
        by_cases h2 : cfg2.event_hub_connection_string ≠ "" <;>
          simp [initializeProcessor, initialEventProcessor, h1, h2]
  · rw [hinit]
  · rw [hinit]
  · rw [hinit]
    rfl

/-- Witness for C10: with an empty configuration, startup fails only on the
Redis ping; with Redis reachable it succeeds, and the intake loop returns
immediately with no consumer client. -/
theorem C10_init_dependencies_witness :
    (initializeProcessor ⟨"", "", ""⟩ false initialEventProcessor).2.isSome = true ∧
    (initializeProcessor ⟨"", "", ""⟩ true initialEventProcessor).2 = none ∧
    (initializeProcessor ⟨"", "", ""⟩ true initialEventProcessor).1.running = false ∧
    process_events (initializeProcessor ⟨"", "", ""⟩ true initialEventProcessor).1
        (Except.ok ()) =
      ((initializeProcessor ⟨"", "", ""⟩ true initialEventProcessor).1,
        LoopExit.noConsumer) :=
  ⟨(C10_init_dependencies ⟨"", "", ""⟩ (Except.ok ()) rfl rfl).1 ⟨"", "", ""⟩,
   (C10_init_dependencies ⟨"", "", ""⟩ (Except.ok ()) rfl rfl).2.2.1,
   (C10_init_dependencies ⟨"", "", ""⟩ (Except.ok ()) rfl rfl).2.2.2.1,
   (C10_init_dependencies ⟨"", "", ""⟩ (Except.ok ()) rfl rfl).2.2.2.2⟩

end EventProc
